import Mathlib

/-!
Verification of the node communication layer of template-node
(src/src/template_node/base_node.py) against its natural-language
specification.  The Python module is shallowly embedded below: pure
functions become Lean functions, the mutable BaseNode object becomes an
explicit NodeState threaded through each operation, exceptions become
Except / Option results, datagram transmission is modelled by a
predicate on addresses (net : Addr -> Bool, true when sendto succeeds),
uuid4 ids and time.time() readings enter as explicit parameters, and
side effects that Python performs on the wire (socket sends, callback
invocations, custom handler invocations) are recorded in ghost log
fields of NodeState.
-/

/-- Wire values: the structured data that json.dumps / json.loads move
across the UDP socket.  Numbers are modelled by rationals, which covers
the Python ints and floats the module produces. -/
inductive WireVal where
  | null
  | bool (b : Bool)
  | num (q : ℚ)
  | str (s : String)
  | list (xs : List WireVal)
  | obj (fields : List (String × WireVal))

/-- A decoded JSON object, as handed to BaseNode._deserialize_message:
a string-keyed mapping.  Association list with first-match lookup; the
wire objects produced by the module have pairwise distinct keys. -/
abbrev WireDict := List (String × WireVal)

/-- A UDP peer address (host, port), as used by socket.sendto. -/
abbrev Addr := String × Nat

/-- class MessageType(Enum) of base_node.py. -/
inductive MessageType where
  | command
  | response
  | status
  | emergency
  | heartbeat
  | data
deriving DecidableEq

/-- The .value of each MessageType member. -/
def MessageType.value : MessageType → String
  | .command => "command"
  | .response => "response"
  | .status => "status"
  | .emergency => "emergency"
  | .heartbeat => "heartbeat"
  | .data => "data"

/-- class Priority(Enum) of base_node.py. -/
inductive Priority where
  | low
  | normal
  | high
  | critical
  | emergency
deriving DecidableEq

/-- The .value of each Priority member (1..5). -/
def Priority.value : Priority → ℚ
  | .low => 1
  | .normal => 2
  | .high => 3
  | .critical => 4
  | .emergency => 5

/-- dataclass NodeMessage of base_node.py.  ttl, requires_ack and
ack_received carry the dataclass defaults. -/
structure NodeMessage where
  message_id : String
  type : MessageType
  priority : Priority
  source : String
  destination : String
  payload : WireVal
  timestamp : ℚ
  ttl : Option ℚ := none
  requires_ack : Bool := false
  ack_received : Bool := false

/-- BaseNode._serialize_message: the dict sent over the wire.  Note the
ack_received bookkeeping field is not serialized. -/
def serializeWire (m : NodeMessage) : WireDict :=
  [("message_id", .str m.message_id),
   ("type", .str m.type.value),
   ("priority", .num m.priority.value),
   ("source", .str m.source),
   ("destination", .str m.destination),
   ("payload", m.payload),
   ("timestamp", .num m.timestamp),
   ("ttl", match m.ttl with | some t => .num t | none => .null),
   ("requires_ack", .bool m.requires_ack)]

/-- MessageType(v): Python enum lookup by value; raises ValueError
(invalid enum) when v is not one of the six strings, which this model
renders as none. -/
def parseType : WireVal → Option MessageType
  | .str "command" => some .command
  | .str "response" => some .response
  | .str "status" => some .status
  | .str "emergency" => some .emergency
  | .str "heartbeat" => some .heartbeat
  | .str "data" => some .data
  | _ => none

/-- Priority(v): Python enum lookup by value.  Python compares by ==,
under which True == 1, so the boolean true finds Priority.LOW; every
other non-numeric value raises ValueError (none here). -/
def parsePriority : WireVal → Option Priority
  | .num q =>
      if q = 1 then some .low
      else if q = 2 then some .normal
      else if q = 3 then some .high
      else if q = 4 then some .critical
      else if q = 5 then some .emergency
      else none
  | .bool b => if b then some .low else none
  | _ => none

/-- How BaseNode._deserialize_message can fail: KeyError on a missing
required field, ValueError from an enum constructor, and (a region no
claim touches) construction from values whose runtime type differs from
the one the module itself ever sends; Python would build an ill-typed
NodeMessage there, while this typed embedding flags it. -/
inductive DecodeErr where
  | missingField (field : String)
  | invalidEnum
  | illTyped
deriving DecidableEq

def asStr : WireVal → Option String
  | .str s => some s
  | _ => none

def asNum : WireVal → Option ℚ
  | .num q => some q
  | _ => none

def asBool : WireVal → Option Bool
  | .bool b => some b
  | _ => none

/-- data.get("ttl"): absent and JSON null both give Python None. -/
def asOptNum : WireVal → Option (Option ℚ)
  | .null => some none
  | .num q => some (some q)
  | _ => none

/-- The seven required fields of a wire envelope, in the order the
NodeMessage constructor arguments are evaluated in
BaseNode._deserialize_message. -/
def requiredKeys : List String :=
  ["message_id", "type", "priority", "source", "destination", "payload", "timestamp"]

/-- Every key the decoder reads: the required ones plus the two
optional ones fetched with dict.get. -/
def knownKeys : List String := requiredKeys ++ ["ttl", "requires_ack"]

/-- BaseNode._deserialize_message.  The lookups and enum conversions
happen in Python's argument evaluation order: a missing field raises
KeyError at its lookup, an unrecognized enum value raises ValueError at
its conversion, whichever comes first in that order. -/
def deserialize (d : WireDict) : Except DecodeErr NodeMessage :=
  match d.lookup "message_id" with
  | none => .error (.missingField "message_id")
  | some midv =>
  match d.lookup "type" with
  | none => .error (.missingField "type")
  | some tyv =>
  match parseType tyv with
  | none => .error .invalidEnum
  | some ty =>
  match d.lookup "priority" with
  | none => .error (.missingField "priority")
  | some prv =>
  match parsePriority prv with
  | none => .error .invalidEnum
  | some pr =>
  match d.lookup "source" with
  | none => .error (.missingField "source")
  | some srcv =>
  match d.lookup "destination" with
  | none => .error (.missingField "destination")
  | some dstv =>
  match d.lookup "payload" with
  | none => .error (.missingField "payload")
  | some pl =>
  match d.lookup "timestamp" with
  | none => .error (.missingField "timestamp")
  | some tsv =>
  let ttlv := (d.lookup "ttl").getD .null
  let rav := (d.lookup "requires_ack").getD (.bool false)
  match asStr midv, asStr srcv, asStr dstv, asNum tsv, asOptNum ttlv, asBool rav with
  | some mid, some src, some dst, some ts, some ttl, some ra =>
      .ok { message_id := mid, type := ty, priority := pr, source := src,
            destination := dst, payload := pl, timestamp := ts, ttl := ttl,
            requires_ack := ra, ack_received := false }
  | _, _, _, _, _, _ => .error .illTyped

/-- The message handlers a node can hold in message_handlers, given as
first-order descriptions interpreted by runHandler: the four defaults
of _register_default_handlers, an opaque user handler registered via
register_handler (observable through the ghost handler log), and the
temporary response wrapper closure that query_db installs, carrying the
query's message_id and the previously registered response handler. -/
inductive Handler where
  | heartbeat
  | status
  | emergency
  | ack
  | custom (tag : String)
  | dbQueryWrapper (mid : String) (original : Option Handler)

/-- Errors a handler can raise; caught and logged at the dispatch
boundary of _process_message. -/
inductive PyErr where
  | typeError
deriving DecidableEq

/-- The mutable state of one BaseNode instance, plus ghost logs.
outbox records every datagram handed to sendto (newest first),
callbackLog records query callback invocations as (query id, response
id), handlerLog records invocations of user-registered handlers as
(tag, message id). -/
structure NodeState where
  node_name : String
  status : String
  last_heartbeat : ℚ
  listening : Bool
  direct_communication_enabled : Bool
  message_handlers : List (String × Handler)
  pending_acks : List (String × NodeMessage)
  db_query_callbacks : List String
  known_nodes : List (String × Addr)
  outbox : List (NodeMessage × Addr)
  callbackLog : List (String × String)
  handlerLog : List (String × String)

/-- Python dict assignment d[k] = v: replaces any previous binding. -/
def dictInsert (k : String) (v : α) (d : List (String × α)) : List (String × α) :=
  (k, v) :: d.filter (fun kv => kv.1 != k)

/-- BaseNode.__init__ followed by _register_default_handlers, with the
configuration entries the claims exercise (known_nodes table and the
direct_communication flag) and t0 the construction-time time.time(). -/
def mkNode (name : String) (t0 : ℚ) (known : List (String × Addr)) (direct : Bool) : NodeState :=
  { node_name := name
    status := "INITIALIZING"
    last_heartbeat := t0
    listening := false
    direct_communication_enabled := direct
    message_handlers :=
      [("heartbeat", .heartbeat), ("status", .status),
       ("emergency", .emergency), ("ack", .ack)]
    pending_acks := []
    db_query_callbacks := []
    known_nodes := known
    outbox := []
    callbackLog := []
    handlerLog := [] }

/-- BaseNode._send_message.  Serialization of a NodeMessage with a
WireVal payload always succeeds (json.dumps is total on this fragment);
sendto may raise, modelled by net addr = false.  On failure the
exception is caught, False is returned and no state changes; only after
a successful transmission is a requires_ack message recorded in
pending_acks. -/
def sendMessage (s : NodeState) (net : Addr → Bool) (m : NodeMessage) (addr : Addr) :
    NodeState × Bool :=
  if net addr then
    let s1 := { s with outbox := (m, addr) :: s.outbox }
    let s2 :=
      if m.requires_ack then
        { s1 with pending_acks := dictInsert m.message_id m s1.pending_acks }
      else s1
    (s2, true)
  else (s, false)

/-- Interpreter for the handlers of base_node.py.

  - heartbeat: _handle_heartbeat sets last_heartbeat to time.time().
  - status: _handle_status builds its snapshot dict and then calls
    NodeMessage(id=..., ...); the dataclass has no field named id (it is
    message_id), so the constructor call raises TypeError before any
    state change or send happens.
  - emergency / ack: _handle_emergency and _handle_ack only log.
  - custom: a user handler registered through register_handler; its
    invocation is recorded in the ghost handler log.
  - dbQueryWrapper: the response_handler closure created in query_db.
    On a response whose source is db_client and whose destination is
    this node, while the query id still has a stored callback, it calls
    the callback (recorded in callbackLog), pops the callback entry,
    and reassigns message_handlers["response"] to the original handler
    only when one existed.  Any other response is forwarded to the
    original handler when one existed, and otherwise ignored. -/
def runHandler (h : Handler) (s : NodeState) (now : ℚ) (net : Addr → Bool)
    (m : NodeMessage) (addr : Addr) : NodeState × Option PyErr :=
  match h with
  | .heartbeat => ({ s with last_heartbeat := now }, none)
  | .status => (s, some .typeError)
  | .emergency => (s, none)
  | .ack => (s, none)
  | .custom tag => ({ s with handlerLog := (tag, m.message_id) :: s.handlerLog }, none)
  | .dbQueryWrapper mid original =>
    if m.source == "db_client" && m.destination == s.node_name then
      if s.db_query_callbacks.contains mid then
        let s1 := { s with
          callbackLog := (mid, m.message_id) :: s.callbackLog,
          db_query_callbacks := s.db_query_callbacks.filter (fun x => x != mid) }
        match original with
        | some h0 =>
            ({ s1 with message_handlers := dictInsert "response" h0 s1.message_handlers }, none)
        | none => (s1, none)
      else (s, none)
    else
      match original with
      | some h0 => runHandler h0 s now net m addr
      | none => (s, none)

/-- The acknowledgment payload of _process_message:
the dict with keys ack_for and status. -/
def ackPayload (mid : String) : WireVal :=
  .obj [("ack_for", .str mid), ("status", .str "received")]

/-- BaseNode._process_message, receiving message m from addr at time
now; freshId is the uuid4 drawn for a possible acknowledgment.

Steps, in source order: the TTL guard (note Python's `if message.ttl`
is false for both None and 0.0); the pending-acknowledgment
short-circuit for RESPONSE messages whose own message_id is a pending
key (the stored entry gets ack_received = True and is deleted); routing
by message.type.value with handler exceptions caught and logged; and
the automatic acknowledgment send when requires_ack is set. -/
def processMessage (s : NodeState) (now : ℚ) (freshId : String) (net : Addr → Bool)
    (m : NodeMessage) (addr : Addr) : NodeState :=
  let expired :=
    match m.ttl with
    | some t => decide (t ≠ 0) && decide (now > t)
    | none => false
  if expired then s
  else if m.type == MessageType.response && (s.pending_acks.lookup m.message_id).isSome then
    { s with pending_acks := s.pending_acks.filter (fun kv => kv.1 != m.message_id) }
  else
    let s1 :=
      match s.message_handlers.lookup m.type.value with
      | some h => (runHandler h s now net m addr).1
      | none => s
    if m.requires_ack then
      (sendMessage s1 net
        { message_id := freshId, type := .response, priority := .normal,
          source := s1.node_name, destination := m.source,
          payload := ackPayload m.message_id, timestamp := now } addr).1
    else s1

/-- BaseNode.start, with bindOk the outcome of socket.bind (false when
the port is already in use).  When direct communication is disabled no
socket is bound and start succeeds. -/
def nodeStart (s : NodeState) (bindOk : Bool) : NodeState × Bool :=
  if s.direct_communication_enabled then
    if bindOk then ({ s with status := "RUNNING", listening := true }, true)
    else ({ s with status := "ERROR" }, false)
  else ({ s with status := "RUNNING" }, true)

/-- BaseNode.stop: sets STOPPING, clears the listening flag, closes the
socket and joins the listener thread when they exist (no-ops that
cannot raise when start never ran), then sets STOPPED. -/
def nodeStop (s : NodeState) : NodeState :=
  { s with status := "STOPPED", listening := false }

/-- The EMERGENCY NodeMessage built once at the top of send_emergency. -/
def emergencyMessage (s : NodeState) (freshId : String) (now : ℚ) (payload : WireVal) :
    NodeMessage :=
  { message_id := freshId, type := .emergency, priority := .emergency,
    source := s.node_name, destination := "multiple", payload := payload,
    timestamp := now, requires_ack := true }

/-- The per-target loop of send_emergency: resolve each target through
known_nodes, skip unresolved ones, send to the rest and count the
successful sends. -/
def sendEmergencyAux (net : Addr → Bool) (m : NodeMessage) :
    NodeState → List String → Nat → NodeState × Nat
  | s, [], cnt => (s, cnt)
  | s, t :: rest, cnt =>
    match s.known_nodes.lookup t with
    | none => sendEmergencyAux net m s rest cnt
    | some addr =>
      let r := sendMessage s net m addr
      sendEmergencyAux net m r.1 rest (if r.2 then cnt + 1 else cnt)

/-- BaseNode.send_emergency: returns success_count > 0. -/
def sendEmergency (s : NodeState) (net : Addr → Bool) (freshId : String) (now : ℚ)
    (targets : List String) (payload : WireVal) : NodeState × Bool :=
  let r := sendEmergencyAux net (emergencyMessage s freshId now payload) s targets 0
  (r.1, decide (r.2 > 0))

/-- Python truthiness on wire values: None, False, 0, empty string,
empty list and empty dict are falsy. -/
def pyTruthy : WireVal → Bool
  | .null => false
  | .bool b => b
  | .num q => q != 0
  | .str s => s != ""
  | .list xs => !xs.isEmpty
  | .obj kvs => !kvs.isEmpty

/-- BaseNode.query_db with explicit freshId for the uuid4 message id
and now for time.time().  query_filter.getD (.obj []) renders Python's
`query_filter or {}` (the only falsy dict is the empty one, on which
both sides agree), and the pyTruthy guard renders `if sort:`.  With a
callback the query id is stored, the current response handler is read,
and the wrapper closure replaces it, all before the send; the request
itself is a COMMAND with requires_ack False. -/
def queryDb (s : NodeState) (net : Addr → Bool) (freshId : String) (now : ℚ)
    (collection : String) (query_filter : Option WireVal) (sort : Option WireVal)
    (lim skp : ℚ) (withCallback : Bool) : NodeState × Bool :=
  match s.known_nodes.lookup "db_client" with
  | none => (s, false)
  | some dbAddr =>
    let basePayload : List (String × WireVal) :=
      [("command", .str "query_data"), ("collection", .str collection),
       ("query", query_filter.getD (.obj [])), ("limit", .num lim), ("skip", .num skp)]
    let payload := WireVal.obj (basePayload ++
      (match sort with
       | some sv => if pyTruthy sv then [("sort", sv)] else []
       | none => []))
    let s1 :=
      if withCallback then
        { s with
          db_query_callbacks := freshId :: s.db_query_callbacks,
          message_handlers :=
            dictInsert "response"
              (.dbQueryWrapper freshId (s.message_handlers.lookup "response"))
              s.message_handlers }
      else s
    sendMessage s1 net
      { message_id := freshId, type := .command, priority := .normal,
        source := s1.node_name, destination := "db_client", payload := payload,
        timestamp := now } dbAddr

/-- Is b a UTF-8 continuation byte. -/
def isCont (b : Nat) : Bool := 128 ≤ b && b ≤ 191

/-- bytes.decode("utf-8") on a byte list, fuelled by the list length
(every code point consumes at least one byte): the RFC 3629 byte-range
table, rejecting overlong forms, surrogates and code points past
U+10FFFF, exactly as Python's strict UTF-8 decoder does.  Returns the
decoded code points. -/
def utf8DecodeAux : Nat → List Nat → Option (List Nat)
  | _, [] => some []
  | 0, _ :: _ => none
  | f + 1, b :: r =>
    if b ≤ 127 then
      (utf8DecodeAux f r).map fun cs => b :: cs
    else if 194 ≤ b && b ≤ 223 then
      match r with
      | b2 :: r2 =>
        if isCont b2 then
          (utf8DecodeAux f r2).map fun cs => ((b - 192) * 64 + (b2 - 128)) :: cs
        else none
      | [] => none
    else if (224 ≤ b && b ≤ 239) then
      match r with
      | b2 :: b3 :: r3 =>
        let okB2 :=
          if b == 224 then 160 ≤ b2 && b2 ≤ 191
          else if b == 237 then 128 ≤ b2 && b2 ≤ 159
          else isCont b2
        if okB2 && isCont b3 then
          (utf8DecodeAux f r3).map fun cs =>
            ((b - 224) * 4096 + (b2 - 128) * 64 + (b3 - 128)) :: cs
        else none
      | _ => none
    else if (240 ≤ b && b ≤ 244) then
      match r with
      | b2 :: b3 :: b4 :: r4 =>
        let okB2 :=
          if b == 240 then 144 ≤ b2 && b2 ≤ 191
          else if b == 244 then 128 ≤ b2 && b2 ≤ 143
          else isCont b2
        if okB2 && isCont b3 && isCont b4 then
          (utf8DecodeAux f r4).map fun cs =>
            ((b - 240) * 262144 + (b2 - 128) * 4096 + (b3 - 128) * 64 + (b4 - 128)) :: cs
        else none
      | _ => none
    else none

def utf8Decode (l : List Nat) : Option (List Nat) := utf8DecodeAux l.length l

/-- Skip JSON whitespace (space, tab, newline, carriage return). -/
def skipWs : List Nat → List Nat
  | c :: r => if c == 32 || c == 9 || c == 10 || c == 13 then skipWs r else c :: r
  | [] => []

def isDigit (c : Nat) : Bool := 48 ≤ c && c ≤ 57

/-- Split off a maximal run of leading decimal digits. -/
def takeDigits : List Nat → List Nat × List Nat
  | c :: r =>
    if isDigit c then
      let p := takeDigits r
      (c :: p.1, p.2)
    else ([], c :: r)
  | [] => ([], [])

def natOfDigits (ds : List Nat) : Nat := ds.foldl (fun a c => a * 10 + (c - 48)) 0

/-- Parse a JSON number (optional minus, integer part, optional
fraction).  Exponent notation, which no value produced by this module
uses, is outside the modelled fragment. -/
def parseNum (l : List Nat) : Option (ℚ × List Nat) :=
  let (neg, l1) := match l with | 45 :: r => (true, r) | _ => (false, l)
  let (ds, l2) := takeDigits l1
  if ds.isEmpty then none
  else
    let ip : ℚ := (natOfDigits ds : ℚ)
    let (q, rest) :=
      match l2 with
      | 46 :: r2 =>
        let (fs, l3) := takeDigits r2
        (ip + (natOfDigits fs : ℚ) / ((10 : ℚ) ^ fs.length), if fs.isEmpty then [] else l3)
      | _ => (ip, l2)
    match l2 with
    | 46 :: r2 => if (takeDigits r2).1.isEmpty then none
                  else some (if neg then -q else q, rest)
    | _ => some (if neg then -q else q, rest)

def hexVal (c : Nat) : Option Nat :=
  if 48 ≤ c && c ≤ 57 then some (c - 48)
  else if 97 ≤ c && c ≤ 102 then some (c - 87)
  else if 65 ≤ c && c ≤ 70 then some (c - 55)
  else none

/-- Parse the body of a JSON string literal (after the opening quote),
returning the code points and the remainder after the closing quote.
Simple escapes and single \uXXXX escapes are supported; surrogate-pair
escapes, which this module never sends, are outside the fragment. -/
def parseStrAux : Nat → List Nat → Option (List Nat × List Nat)
  | 0, _ => none
  | _ + 1, [] => none
  | f + 1, c :: r =>
    if c == 34 then some ([], r)
    else if c == 92 then
      match r with
      | e :: r2 =>
        if e == 34 || e == 92 || e == 47 then
          (parseStrAux f r2).map fun p => (e :: p.1, p.2)
        else if e == 110 then (parseStrAux f r2).map fun p => (10 :: p.1, p.2)
        else if e == 116 then (parseStrAux f r2).map fun p => (9 :: p.1, p.2)
        else if e == 114 then (parseStrAux f r2).map fun p => (13 :: p.1, p.2)
        else if e == 98 then (parseStrAux f r2).map fun p => (8 :: p.1, p.2)
        else if e == 102 then (parseStrAux f r2).map fun p => (12 :: p.1, p.2)
        else if e == 117 then
          match r2 with
          | h1 :: h2 :: h3 :: h4 :: r3 =>
            match hexVal h1, hexVal h2, hexVal h3, hexVal h4 with
            | some a, some b, some c2, some d2 =>
              (parseStrAux f r3).map fun p =>
                ((a * 4096 + b * 256 + c2 * 16 + d2) :: p.1, p.2)
            | _, _, _, _ => none
          | _ => none
        else none
      | [] => none
    else (parseStrAux f r).map fun p => (c :: p.1, p.2)

def strFromPoints (cs : List Nat) : String := String.mk (cs.map Char.ofNat)

mutual

/-- json.loads, value parser over decoded code points, fuelled. -/
def parseVal : Nat → List Nat → Option (WireVal × List Nat)
  | 0, _ => none
  | f + 1, l =>
    match skipWs l with
    | [] => none
    | c :: r =>
      if c == 123 then
        match skipWs r with
        | 125 :: r2 => some (.obj [], r2)
        | r1 => parseMembers f r1 []
      else if c == 91 then
        match skipWs r with
        | 93 :: r2 => some (.list [], r2)
        | r1 => parseItems f r1 []
      else if c == 34 then
        (parseStrAux (r.length + 1) r).map fun p => (.str (strFromPoints p.1), p.2)
      else if c == 116 then
        match r with
        | 114 :: 117 :: 101 :: r2 => some (.bool true, r2)
        | _ => none
      else if c == 102 then
        match r with
        | 97 :: 108 :: 115 :: 101 :: r2 => some (.bool false, r2)
        | _ => none
      else if c == 110 then
        match r with
        | 117 :: 108 :: 108 :: r2 => some (.null, r2)
        | _ => none
      else
        (parseNum (c :: r)).map fun p => (.num p.1, p.2)

/-- Object members after the opening brace (nonempty case). -/
def parseMembers : Nat → List Nat → List (String × WireVal) → Option (WireVal × List Nat)
  | 0, _, _ => none
  | f + 1, l, acc =>
    match skipWs l with
    | 34 :: r =>
      match parseStrAux (r.length + 1) r with
      | some (keyCs, r2) =>
        match skipWs r2 with
        | 58 :: r3 =>
          match parseVal f r3 with
          | some (v, r4) =>
            let acc2 := acc ++ [(strFromPoints keyCs, v)]
            match skipWs r4 with
            | 44 :: r5 => parseMembers f r5 acc2
            | 125 :: r5 => some (.obj acc2, r5)
            | _ => none
          | none => none
        | _ => none
      | none => none
    | _ => none

/-- Array items after the opening bracket (nonempty case). -/
def parseItems : Nat → List Nat → List WireVal → Option (WireVal × List Nat)
  | 0, _, _ => none
  | f + 1, l, acc =>
    match parseVal f l with
    | some (v, r) =>
      let acc2 := acc ++ [v]
      match skipWs r with
      | 44 :: r2 => parseItems f r2 acc2
      | 93 :: r2 => some (.list acc2, r2)
      | _ => none
    | none => none

end

/-- json.loads over the decoded text. -/
def jsonParse (l : List Nat) : Option WireVal :=
  match parseVal (l.length + 1) l with
  | some (v, rest) => if (skipWs rest).isEmpty then some v else none
  | none => none

/-- One iteration of the BaseNode._listen_for_messages loop body on a
received datagram: data.decode("utf-8"), json.loads,
_deserialize_message, _process_message, all inside
`except Exception as e`.  The except block's last logging line
re-evaluates data.decode("utf-8") (guarded only against empty data):
when the datagram was not valid UTF-8, that second decode raises
UnicodeDecodeError inside the except handler, escaping the while loop —
the .error outcome.  For every valid-UTF-8 datagram the except block
completes and the loop continues. -/
def listenStep (s : NodeState) (now : ℚ) (freshId : String) (net : Addr → Bool)
    (data : List Nat) (addr : Addr) : Except Unit NodeState :=
  match utf8Decode data with
  | none => .error ()
  | some chars =>
    match jsonParse chars with
    | none => .ok s
    | some j =>
      match j with
      | .obj d =>
        match deserialize d with
        | .error _ => .ok s
        | .ok m => .ok (processMessage s now freshId net m addr)
      | _ => .ok s

/-- A transmission relation under which every sendto succeeds. -/
def netAll : Addr → Bool := fun _ => true

/-- A transmission relation under which every sendto raises. -/
def netNone : Addr → Bool := fun _ => false

/-! Concrete fixtures used by individual claims. -/

/-- Sender node for the acknowledgment round trip. -/
def c1Sender0 : NodeState := mkNode "alice" 0 [] true

/-- Receiver node for the acknowledgment round trip. -/
def c1Receiver0 : NodeState := mkNode "bob" 0 [] true

def c1AddrA : Addr := ("10.0.0.1", 14551)

def c1AddrB : Addr := ("10.0.0.2", 14551)

/-- An envelope sent with requires_ack = True. -/
def c1Msg : NodeMessage :=
  { message_id := "m-1", type := .command, priority := .normal, source := "alice",
    destination := "bob", payload := .obj [], timestamp := 100, requires_ack := true }

/-- The sender after transmitting c1Msg. -/
def c1Sender1 : NodeState := (sendMessage c1Sender0 netAll c1Msg c1AddrB).1

/-- The receiver after processing c1Msg; the uuid4 drawn for the
acknowledgment is ack-uuid-1. -/
def c1Receiver1 : NodeState := processMessage c1Receiver0 101 "ack-uuid-1" netAll c1Msg c1AddrA

/-- The acknowledgment RESPONSE the receiver emits: a fresh message_id,
with the original id only inside the payload. -/
def c1Ack : NodeMessage :=
  { message_id := "ack-uuid-1", type := .response, priority := .normal, source := "bob",
    destination := "alice", payload := ackPayload "m-1", timestamp := 101 }

/-- The sender after processing the acknowledgment RESPONSE. -/
def c1Sender2 : NodeState := processMessage c1Sender1 102 "ack-uuid-2" netAll c1Ack c1AddrB

/-- A wire mapping that is missing the required priority, source,
destination, payload and timestamp fields and carries an unrecognized
type value. -/
def c3Cex : WireDict := [("message_id", .str "x"), ("type", .str "bogus")]

/-- Witness dict: type present and valid, everything else missing. -/
def c3W1 : WireDict := [("type", .str "command")]

/-- Witness dict: all required fields present, type unrecognized. -/
def c3W2 : WireDict :=
  [("message_id", .str "i"), ("type", .str "bogus"), ("priority", .num 2),
   ("source", .str "s"), ("destination", .str "d"), ("payload", .null),
   ("timestamp", .num 1)]

/-- Witness envelope for the extra-fields clause. -/
def c3WMsg : NodeMessage :=
  { message_id := "w", type := .heartbeat, priority := .low, source := "s",
    destination := "d", payload := .null, timestamp := 2 }

/-- A STATUS request envelope. -/
def c5Msg : NodeMessage :=
  { message_id := "s-1", type := .status, priority := .normal, source := "asker",
    destination := "n", payload := .obj [], timestamp := 4 }

/-- A node that knows the db_client address; its default handler table
has no response entry. -/
def c6Node : NodeState := mkNode "nodeA" 0 [("db_client", ("127.0.0.1", 15000))] true

/-- c6Node after issuing a query with a callback (query id q-1). -/
def c6Query : NodeState := (queryDb c6Node netAll "q-1" 10 "System" none none 100 0 true).1

/-- The matching DB response. -/
def c6Resp : NodeMessage :=
  { message_id := "r-1", type := .response, priority := .normal, source := "db_client",
    destination := "nodeA", payload := .obj [("status", .str "success")], timestamp := 11 }

/-- The querying node after the matching response has been serviced. -/
def c6After : NodeState := processMessage c6Query 12 "u-3" netAll c6Resp ("127.0.0.1", 15000)

def c6WBase : NodeState := mkNode "n" 0 [] true

/-- Witness state: one stored query callback with id qq. -/
def c6WS : NodeState := { c6WBase with db_query_callbacks := ["qq"] }

def c6WQNode : NodeState := mkNode "n" 0 [("db_client", ("h", 9))] true

/-- A response matching the qq query shape. -/
def c6WResp : NodeMessage :=
  { message_id := "rr", type := .response, priority := .normal, source := "db_client",
    destination := "n", payload := .null, timestamp := 3 }

/-- A response from a different source: non-matching. -/
def c6WOther : NodeMessage :=
  { message_id := "oo", type := .response, priority := .normal, source := "other",
    destination := "n", payload := .null, timestamp := 3 }

/-- Emergency-broadcast node knowing targets A, B and C. -/
def c7Node : NodeState :=
  mkNode "hub" 0
    [("A", ("10.0.0.1", 1111)), ("B", ("10.0.0.2", 2222)), ("C", ("10.0.0.3", 3333))] true

/-- Transmission succeeds everywhere except at B's address. -/
def c7Net : Addr → Bool := fun a => a != ("10.0.0.2", 2222)

/-- Does target t resolve to an address the network accepts. -/
def targetOk (kn : List (String × Addr)) (net : Addr → Bool) (t : String) : Bool :=
  match kn.lookup t with
  | some a => net a
  | none => false

/-- A heartbeat envelope whose ttl is the absolute time 0.0 (long
expired at receipt time 100) and which requests an acknowledgment. -/
def c8Msg : NodeMessage :=
  { message_id := "z-1", type := .heartbeat, priority := .normal, source := "x",
    destination := "n", payload := .obj [], timestamp := 0, ttl := some 0,
    requires_ack := true }

/-- Witness envelope with a nonzero expired ttl. -/
def c8WMsg : NodeMessage :=
  { message_id := "z-2", type := .heartbeat, priority := .normal, source := "x",
    destination := "n", payload := .obj [], timestamp := 0, ttl := some 50,
    requires_ack := true }

/-- A requires_ack envelope used by the send-failure witness. -/
def c10Msg : NodeMessage :=
  { message_id := "q-7", type := .data, priority := .low, source := "a",
    destination := "b", payload := .null, timestamp := 1, requires_ack := true }

/-! Helper lemmas (shared). -/

theorem lookup_dictInsert_self (k : String) (v : α) (d : List (String × α)) :
    (dictInsert k v d).lookup k = some v := by
  simp [dictInsert, List.lookup]

theorem sendMessage_fst_message_handlers (s : NodeState) (net : Addr → Bool)
    (m : NodeMessage) (a : Addr) :
    ((sendMessage s net m a).1).message_handlers = s.message_handlers := by
  by_cases h : net a <;> by_cases h2 : m.requires_ack <;> simp [sendMessage, h, h2]

theorem sendMessage_fst_known_nodes (s : NodeState) (net : Addr → Bool)
    (m : NodeMessage) (a : Addr) :
    ((sendMessage s net m a).1).known_nodes = s.known_nodes := by
  by_cases h : net a <;> by_cases h2 : m.requires_ack <;> simp [sendMessage, h, h2]

theorem sendMessage_snd (s : NodeState) (net : Addr → Bool) (m : NodeMessage) (a : Addr) :
    (sendMessage s net m a).2 = net a := by
  by_cases h : net a <;> simp [sendMessage, h]

theorem sendEmergencyAux_count (net : Addr → Bool) (m : NodeMessage) :
    ∀ (targets : List String) (s : NodeState) (cnt : Nat),
      (sendEmergencyAux net m s targets cnt).2 =
        cnt + targets.countP (targetOk s.known_nodes net) := by
  intro targets
  induction targets with
  | nil => intro s cnt; simp [sendEmergencyAux]
  | cons t rest ih =>
    intro s cnt
    simp only [sendEmergencyAux]
    cases h : s.known_nodes.lookup t with
    | none =>
      rw [ih]
      simp [List.countP_cons, targetOk, h]
    | some a =>
      rw [ih, sendMessage_fst_known_nodes, sendMessage_snd, List.countP_cons]
      have ht : targetOk s.known_nodes net t = net a := by simp [targetOk, h]
      rw [ht]
      cases hn : net a <;> (simp; try omega)

theorem targetOk_eq_true_iff (kn : List (String × Addr)) (net : Addr → Bool) (t : String) :
    targetOk kn net t = true ↔ ∃ a, kn.lookup t = some a ∧ net a = true := by
  cases h : kn.lookup t <;> simp [targetOk, h]

/-! Claim theorems. -/

/-- C1.  The first half of the claim holds: a received requires_ack
envelope triggers exactly one acknowledgment RESPONSE carrying
payload (ack_for: original id, status: "received").  The second half
fails on the code: the acknowledgment is built with a fresh uuid4
message_id, while _process_message resolves pending entries by matching
the incoming RESPONSE's own message_id against pending_acks, never
reading payload ack_for — so when the sender processes the
acknowledgment its state is completely unchanged and the pending entry
for m-1 survives. -/
theorem ack_response_leaves_pending_unresolved :
    (sendMessage c1Sender0 netAll c1Msg c1AddrB).2 = true ∧
    c1Sender1.pending_acks = [("m-1", c1Msg)] ∧
    c1Receiver1.outbox = [(c1Ack, c1AddrA)] ∧
    c1Ack.payload = WireVal.obj [("ack_for", .str "m-1"), ("status", .str "received")] ∧
    c1Ack.message_id = "ack-uuid-1" ∧
    c1Sender2 = c1Sender1 :=
  ⟨rfl, rfl, rfl, rfl, rfl, rfl⟩

/-- C2.  For every envelope (the typed NodeMessage carrier enforces the
validity conditions: all fields set, kind and priority in their closed
enumerations), deserializing the serialized wire form succeeds and
reproduces every envelope field — id, kind, priority, source,
destination, payload (structural equality), timestamp, ttl and
requires_ack.  The internal ack_received bookkeeping flag, which is not
part of the wire envelope and is never serialized, is reset to the
dataclass default False. -/
theorem decode_encode_roundtrip (m : NodeMessage) :
    deserialize (serializeWire m) = .ok { m with ack_received := false } := by
  obtain ⟨mid, ty, pr, src, dst, pl, ts, ttl, ra, ar⟩ := m
  cases ty <;> cases pr <;> cases ttl <;> rfl

/-- C4.  The receive loop is not malformed-datagram-proof: a datagram
that is not valid UTF-8 (the single byte 0xFF) raises
UnicodeDecodeError; while handling it, the except block's logging line
re-runs data.decode("utf-8"), which raises again outside any handler
and terminates the loop (.error).  By contrast a datagram that decodes
as text but is malformed JSON (the single byte 0x7B, an opening brace)
is logged and the loop continues unchanged (.ok). -/
theorem listen_loop_crashes_on_invalid_utf8 (s : NodeState) (now : ℚ) (fid : String)
    (net : Addr → Bool) (addr : Addr) :
    listenStep s now fid net [255] addr = .error () ∧
    listenStep s now fid net [123] addr = .ok s :=
  ⟨rfl, rfl⟩

/-- C5.  The default STATUS handler never sends the snapshot RESPONSE:
_handle_status calls NodeMessage(id=...) although the dataclass field
is message_id, so the constructor raises TypeError; _process_message
catches and logs it, and for a STATUS request (no ttl, no ack request)
the node state — including the outbox — is left exactly unchanged: no
RESPONSE is sent. -/
theorem status_handler_raises_and_sends_no_reply (s : NodeState) (now : ℚ) (fid : String)
    (net : Addr → Bool) (m : NodeMessage) (addr : Addr)
    (hh : s.message_handlers.lookup "status" = some .status)
    (hty : m.type = .status) (httl : m.ttl = none) (hra : m.requires_ack = false) :
    runHandler .status s now net m addr = (s, some .typeError) ∧
    processMessage s now fid net m addr = s := by
  refine ⟨rfl, ?_⟩
  simp [processMessage, httl, hty, hra, hh, MessageType.value, runHandler]

/-- Witness for C5 at a concrete node and STATUS envelope. -/
theorem status_handler_raises_and_sends_no_reply_witness :
    runHandler .status (mkNode "n" 0 [] true) 5 netAll c5Msg ("h", 1) =
      ((mkNode "n" 0 [] true), some .typeError) ∧
    processMessage (mkNode "n" 0 [] true) 5 "f" netAll c5Msg ("h", 1) = mkNode "n" 0 [] true :=
  status_handler_raises_and_sends_no_reply (mkNode "n" 0 [] true) 5 "f" netAll c5Msg ("h", 1)
    rfl rfl rfl rfl

/-- C8 counterexample.  An envelope whose ttl is set to the absolute
time 0.0, long before the receipt time 100, is nevertheless dispatched:
Python's `if message.ttl` is false for the float 0.0, so the expiry
guard is skipped, the heartbeat handler runs (last_heartbeat becomes
100) and the requested acknowledgment is sent — the claim predicted a
drop with no handler invocation and no acknowledgment. -/
theorem zero_ttl_envelope_dispatched :
    (processMessage (mkNode "n" 0 [] true) 100 "ack-1" netAll c8Msg ("h", 1)).last_heartbeat
      = 100 ∧
    (processMessage (mkNode "n" 0 [] true) 100 "ack-1" netAll c8Msg ("h", 1)).outbox =
      [({ message_id := "ack-1", type := .response, priority := .normal, source := "n",
          destination := "x", payload := ackPayload "z-1", timestamp := 100 }, ("h", 1))] :=
  ⟨rfl, rfl⟩

/-- C8 as amended.  For every received envelope whose ttl is set to a
nonzero time earlier than the receipt time, the envelope is dropped
before dispatch: the state is returned unchanged, so no handler runs
and no acknowledgment is sent. -/
theorem expired_nonzero_ttl_dropped (s : NodeState) (now : ℚ) (fid : String)
    (net : Addr → Bool) (m : NodeMessage) (addr : Addr) (t : ℚ)
    (h1 : m.ttl = some t) (h2 : t ≠ 0) (h3 : now > t) :
    processMessage s now fid net m addr = s := by
  have e1 : decide (t ≠ 0) = true := by simp [h2]
  have e2 : decide (now > t) = true := by simp [h3]
  simp [processMessage, h1, e1, e2]

/-- Witness for the amended C8 at a concrete expired envelope. -/
theorem expired_nonzero_ttl_dropped_witness :
    processMessage (mkNode "n" 0 [] true) 100 "f" netAll c8WMsg ("h", 1) =
      mkNode "n" 0 [] true :=
  expired_nonzero_ttl_dropped (mkNode "n" 0 [] true) 100 "f" netAll c8WMsg ("h", 1) 50
    rfl (by norm_num) (by norm_num)

/-- C9.  stop() is total and leaves any node — including one never
started or one stuck in ERROR — in status STOPPED; start() under a bind
failure of the transport endpoint (direct communication enabled) leaves
the node in status ERROR and returns False. -/
theorem lifecycle_stop_safe_and_bind_error :
    (∀ s : NodeState, (nodeStop s).status = "STOPPED") ∧
    (∀ s : NodeState, s.direct_communication_enabled = true →
      (nodeStart s false).1.status = "ERROR" ∧ (nodeStart s false).2 = false) := by
  refine ⟨fun s => rfl, fun s h => ?_⟩
  simp [nodeStart, h]

/-- Witness for C9 at a freshly constructed node. -/
theorem lifecycle_stop_safe_and_bind_error_witness :
    (nodeStop (mkNode "n" 0 [] true)).status = "STOPPED" ∧
    (nodeStart (mkNode "n" 0 [] true) false).1.status = "ERROR" ∧
    (nodeStart (mkNode "n" 0 [] true) false).2 = false :=
  ⟨lifecycle_stop_safe_and_bind_error.1 (mkNode "n" 0 [] true),
   (lifecycle_stop_safe_and_bind_error.2 (mkNode "n" 0 [] true) rfl).1,
   (lifecycle_stop_safe_and_bind_error.2 (mkNode "n" 0 [] true) rfl).2⟩

/-- C10.  When transmission raises, _send_message catches, returns
False and leaves the whole state — in particular pending_acks —
unchanged; a requires_ack envelope is recorded in pending_acks exactly
when the send succeeded. -/
theorem send_failure_returns_false_no_pending (s : NodeState) (net : Addr → Bool)
    (m : NodeMessage) (addr : Addr) :
    (net addr = false → sendMessage s net m addr = (s, false)) ∧
    ((sendMessage s net m addr).2 = false → (sendMessage s net m addr).1 = s) ∧
    (net addr = true → m.requires_ack = true →
      (sendMessage s net m addr).1.pending_acks = dictInsert m.message_id m s.pending_acks ∧
      (sendMessage s net m addr).2 = true) := by
  by_cases h : net addr <;> by_cases h2 : m.requires_ack <;> simp [sendMessage, h, h2]

/-- Witness for C10: a failing and a succeeding send of the same
requires_ack envelope. -/
theorem send_failure_returns_false_no_pending_witness :
    sendMessage (mkNode "a" 0 [] true) netNone c10Msg ("peer", 2) =
      (mkNode "a" 0 [] true, false) ∧
    (sendMessage (mkNode "a" 0 [] true) netAll c10Msg ("peer", 2)).1.pending_acks =
      dictInsert "q-7" c10Msg [] ∧
    (sendMessage (mkNode "a" 0 [] true) netAll c10Msg ("peer", 2)).2 = true := by
  refine ⟨(send_failure_returns_false_no_pending (mkNode "a" 0 [] true) netNone c10Msg
      ("peer", 2)).1 rfl, ?_, ?_⟩
  · exact ((send_failure_returns_false_no_pending (mkNode "a" 0 [] true) netAll c10Msg
      ("peer", 2)).2.2 rfl rfl).1
  · exact ((send_failure_returns_false_no_pending (mkNode "a" 0 [] true) netAll c10Msg
      ("peer", 2)).2.2 rfl rfl).2

/-- C3 counterexample.  The wire mapping c3Cex is missing the required
field priority (and several others), yet decoding fails with the
invalid-enum error, not a missing-field error: the NodeMessage
arguments are evaluated in order, so MessageType("bogus") raises
ValueError before the missing priority field is ever looked up. -/
theorem missing_field_reported_as_invalid_enum :
    deserialize c3Cex = .error .invalidEnum ∧
    c3Cex.lookup "priority" = none ∧
    "priority" ∈ requiredKeys := by
  refine ⟨rfl, rfl, ?_⟩
  simp [requiredKeys]

/-- C3 as amended.  Decoding checks fields in evaluation order.  (1) A
mapping missing a required field fails with a missing-field error,
provided every kind/priority value that is present parses (otherwise
the earlier invalid-enum error wins, as the counterexample shows).
(2) A mapping with all required fields present whose kind or priority
is unrecognized fails with the invalid-enum error.  In both cases no
envelope results.  (3) Extra unknown fields alone never cause failure:
they leave decoding of a serialized envelope unaffected. -/
theorem deserialize_error_modes :
    (∀ d : WireDict,
      (∃ f ∈ requiredKeys, d.lookup f = none) →
      (∀ v, d.lookup "type" = some v → (parseType v).isSome = true) →
      (∀ v, d.lookup "priority" = some v → (parsePriority v).isSome = true) →
      ∃ f, deserialize d = .error (.missingField f)) ∧
    (∀ d : WireDict,
      (∀ f ∈ requiredKeys, (d.lookup f).isSome = true) →
      ((∃ v, d.lookup "type" = some v ∧ parseType v = none) ∨
       (∃ v, d.lookup "priority" = some v ∧ parsePriority v = none)) →
      deserialize d = .error .invalidEnum) ∧
    (∀ (m : NodeMessage) (extras : WireDict),
      (∀ kv ∈ extras, kv.1 ∉ knownKeys) →
      deserialize (serializeWire m ++ extras) = deserialize (serializeWire m)) := by
  refine ⟨?_, ?_, ?_⟩
  · intro d hmiss hty hpr
    cases h1 : d.lookup "message_id" with
    | none => exact ⟨"message_id", by simp [deserialize, h1]⟩
    | some midv =>
      cases h2 : d.lookup "type" with
      | none => exact ⟨"type", by simp [deserialize, h1, h2]⟩
      | some tyv =>
        obtain ⟨ty, h2b⟩ := Option.isSome_iff_exists.mp (hty tyv h2)
        cases h3 : d.lookup "priority" with
        | none => exact ⟨"priority", by simp [deserialize, h1, h2, h2b, h3]⟩
        | some prv =>
          obtain ⟨pr, h3b⟩ := Option.isSome_iff_exists.mp (hpr prv h3)
          cases h4 : d.lookup "source" with
          | none => exact ⟨"source", by simp [deserialize, h1, h2, h2b, h3, h3b, h4]⟩
          | some srcv =>
            cases h5 : d.lookup "destination" with
            | none =>
              exact ⟨"destination", by simp [deserialize, h1, h2, h2b, h3, h3b, h4, h5]⟩
            | some dstv =>
              cases h6 : d.lookup "payload" with
              | none =>
                exact ⟨"payload", by simp [deserialize, h1, h2, h2b, h3, h3b, h4, h5, h6]⟩
              | some plv =>
                cases h7 : d.lookup "timestamp" with
                | none =>
                  exact ⟨"timestamp",
                    by simp [deserialize, h1, h2, h2b, h3, h3b, h4, h5, h6, h7]⟩
                | some tsv =>
                  exfalso
                  obtain ⟨f, hf, hnone⟩ := hmiss
                  simp [requiredKeys] at hf
                  rcases hf with rfl | rfl | rfl | rfl | rfl | rfl | rfl <;> simp_all
  · intro d hall hbad
    obtain ⟨midv, h1⟩ :=
      Option.isSome_iff_exists.mp (hall "message_id" (by simp [requiredKeys]))
    obtain ⟨tyv, h2⟩ := Option.isSome_iff_exists.mp (hall "type" (by simp [requiredKeys]))
    rcases hbad with ⟨v, hv, hpn⟩ | ⟨v, hv, hpn⟩
    · rw [h2] at hv
      obtain rfl := Option.some.inj hv
      simp [deserialize, h1, h2, hpn]
    · cases hpt : parseType tyv with
      | none => simp [deserialize, h1, h2, hpt]
      | some ty =>
        obtain ⟨prv, h3⟩ :=
          Option.isSome_iff_exists.mp (hall "priority" (by simp [requiredKeys]))
        rw [h3] at hv
        obtain rfl := Option.some.inj hv
        simp [deserialize, h1, h2, hpt, h3, hpn]
  · intro m extras hx
    obtain ⟨mid, ty, pr, src, dst, pl, ts, ttl, ra, ar⟩ := m
    cases ty <;> cases pr <;> cases ttl <;> rfl

/-- Witness for the amended C3: a mapping missing fields with valid
enums present, a complete mapping with a bad kind, and a serialized
envelope with one extra unknown field. -/
theorem deserialize_error_modes_witness :
    (∃ f, deserialize c3W1 = .error (.missingField f)) ∧
    deserialize c3W2 = .error .invalidEnum ∧
    deserialize (serializeWire c3WMsg ++ [("extra", .num 9)]) =
      deserialize (serializeWire c3WMsg) := by
  refine ⟨?_, ?_, ?_⟩
  · apply deserialize_error_modes.1 c3W1
    · exact ⟨"message_id", by simp [requiredKeys], rfl⟩
    · intro v hv
      have h0 : some (WireVal.str "command") = some v := hv
      cases h0
      rfl
    · intro v hv
      exact Option.noConfusion hv
  · apply deserialize_error_modes.2.1 c3W2
    · intro f hf
      simp [requiredKeys] at hf
      rcases hf with rfl | rfl | rfl | rfl | rfl | rfl | rfl <;> rfl
    · exact Or.inl ⟨.str "bogus", rfl, rfl⟩
  · exact deserialize_error_modes.2.2 c3WMsg [("extra", .num 9)]
      (by simp [knownKeys, requiredKeys])

/-- C6 counterexample.  Before the query, c6Node has no RESPONSE
handler (the defaults are heartbeat, status, emergency, ack).  After
query_db installs the wrapper and the matching response is serviced
(the callback runs and the pending entry is popped, as callbackLog and
db_query_callbacks show), the handler table has NOT reverted to its
pre-query state: the wrapper is still installed under response, because
the restore is guarded by `if original_handler:`. -/
theorem query_wrapper_not_reverted_without_prior_handler :
    c6Node.message_handlers.lookup "response" = none ∧
    c6Query.message_handlers.lookup "response" = some (.dbQueryWrapper "q-1" none) ∧
    c6After.callbackLog = [("q-1", "r-1")] ∧
    c6After.db_query_callbacks = [] ∧
    c6After.message_handlers.lookup "response" = some (.dbQueryWrapper "q-1" none) :=
  ⟨rfl, rfl, rfl, rfl, rfl⟩

/-- C6 as amended.  (1) query_db with a callback wraps the RESPONSE
key: the installed handler is the wrapper carrying the query id and the
previously registered RESPONSE handler.  (2) On the first matching
response (source db_client, destination this node, query entry still
pending) the wrapper invokes the callback, removes the pending entry
and restores the prior RESPONSE handler when one was registered.
(3) When no prior RESPONSE handler existed, the same servicing happens
but nothing is restored: the wrapper itself stays installed.  (4) Once
the pending entry is gone the wrapper ignores further matching-shaped
responses (single shot).  (5) A non-matching response is forwarded to
the prior RESPONSE handler when one existed, and (6) is ignored
otherwise. -/
theorem query_wrapper_semantics :
    (∀ (s : NodeState) (net : Addr → Bool) (fid : String) (now : ℚ) (coll : String)
       (a : Addr),
      s.known_nodes.lookup "db_client" = some a →
      (queryDb s net fid now coll none none 100 0 true).1.message_handlers.lookup "response"
        = some (.dbQueryWrapper fid (s.message_handlers.lookup "response"))) ∧
    (∀ (s : NodeState) (now : ℚ) (net : Addr → Bool) (m : NodeMessage) (addr : Addr)
       (mid : String) (h0 : Handler),
      m.source = "db_client" → m.destination = s.node_name →
      mid ∈ s.db_query_callbacks →
      runHandler (.dbQueryWrapper mid (some h0)) s now net m addr =
        ({ s with
            callbackLog := (mid, m.message_id) :: s.callbackLog,
            db_query_callbacks := s.db_query_callbacks.filter (fun x => x != mid),
            message_handlers := dictInsert "response" h0 s.message_handlers }, none)) ∧
    (∀ (s : NodeState) (now : ℚ) (net : Addr → Bool) (m : NodeMessage) (addr : Addr)
       (mid : String),
      m.source = "db_client" → m.destination = s.node_name →
      mid ∈ s.db_query_callbacks →
      runHandler (.dbQueryWrapper mid none) s now net m addr =
        ({ s with
            callbackLog := (mid, m.message_id) :: s.callbackLog,
            db_query_callbacks := s.db_query_callbacks.filter (fun x => x != mid) }, none)) ∧
    (∀ (s : NodeState) (now : ℚ) (net : Addr → Bool) (m : NodeMessage) (addr : Addr)
       (mid : String) (orig : Option Handler),
      m.source = "db_client" → m.destination = s.node_name →
      mid ∉ s.db_query_callbacks →
      runHandler (.dbQueryWrapper mid orig) s now net m addr = (s, none)) ∧
    (∀ (s : NodeState) (now : ℚ) (net : Addr → Bool) (m : NodeMessage) (addr : Addr)
       (mid : String) (h0 : Handler),
      (m.source ≠ "db_client" ∨ m.destination ≠ s.node_name) →
      runHandler (.dbQueryWrapper mid (some h0)) s now net m addr =
        runHandler h0 s now net m addr) ∧
    (∀ (s : NodeState) (now : ℚ) (net : Addr → Bool) (m : NodeMessage) (addr : Addr)
       (mid : String),
      (m.source ≠ "db_client" ∨ m.destination ≠ s.node_name) →
      runHandler (.dbQueryWrapper mid none) s now net m addr = (s, none)) := by
  refine ⟨?_, ?_, ?_, ?_, ?_, ?_⟩
  · intro s net fid now coll a h
    have hmh : (queryDb s net fid now coll none none 100 0 true).1.message_handlers =
        dictInsert "response"
          (.dbQueryWrapper fid (s.message_handlers.lookup "response"))
          s.message_handlers := by
      simp [queryDb, h, sendMessage_fst_message_handlers]
    rw [hmh, lookup_dictInsert_self]
  · intro s now net m addr mid h0 hsrc hdst hcont
    simp [runHandler, hsrc, hdst, hcont]
  · intro s now net m addr mid hsrc hdst hcont
    simp [runHandler, hsrc, hdst, hcont]
  · intro s now net m addr mid orig hsrc hdst hcont
    cases orig <;> simp [runHandler, hsrc, hdst, hcont]
  · intro s now net m addr mid h0 hne
    rcases hne with hne | hne
    · have hb : (m.source == "db_client") = false := beq_eq_false_iff_ne.mpr hne
      simp [runHandler, hb]
    · have hb : (m.destination == s.node_name) = false := beq_eq_false_iff_ne.mpr hne
      simp [runHandler, hb]
  · intro s now net m addr mid hne
    rcases hne with hne | hne
    · have hb : (m.source == "db_client") = false := beq_eq_false_iff_ne.mpr hne
      simp [runHandler, hb]
    · have hb : (m.destination == s.node_name) = false := beq_eq_false_iff_ne.mpr hne
      simp [runHandler, hb]

/-- Witness for the amended C6: each wrapper behavior at concrete
states and responses. -/
theorem query_wrapper_semantics_witness :
    (queryDb c6WQNode netAll "qf" 1 "c" none none 100 0 true).1.message_handlers.lookup
        "response" = some (.dbQueryWrapper "qf" (c6WQNode.message_handlers.lookup "response")) ∧
    runHandler (.dbQueryWrapper "qq" (some .emergency)) c6WS 2 netAll c6WResp ("h", 1) =
      ({ c6WS with
          callbackLog := [("qq", "rr")],
          db_query_callbacks := [],
          message_handlers := dictInsert "response" .emergency c6WS.message_handlers }, none) ∧
    runHandler (.dbQueryWrapper "qq" none) c6WS 2 netAll c6WResp ("h", 1) =
      ({ c6WS with callbackLog := [("qq", "rr")], db_query_callbacks := [] }, none) ∧
    runHandler (.dbQueryWrapper "qq" none) c6WBase 2 netAll c6WResp ("h", 1) =
      (c6WBase, none) ∧
    runHandler (.dbQueryWrapper "qq" (some .heartbeat)) c6WS 2 netAll c6WOther ("h", 1) =
      runHandler .heartbeat c6WS 2 netAll c6WOther ("h", 1) ∧
    runHandler (.dbQueryWrapper "qq" none) c6WS 2 netAll c6WOther ("h", 1) = (c6WS, none) := by
  refine ⟨query_wrapper_semantics.1 c6WQNode netAll "qf" 1 "c" ("h", 9) rfl,
    ?_, ?_, ?_, ?_, ?_⟩
  · exact query_wrapper_semantics.2.1 c6WS 2 netAll c6WResp ("h", 1) "qq" .emergency
      rfl rfl (by simp [c6WS, c6WBase, mkNode])
  · exact query_wrapper_semantics.2.2.1 c6WS 2 netAll c6WResp ("h", 1) "qq" rfl rfl
      (by simp [c6WS, c6WBase, mkNode])
  · exact query_wrapper_semantics.2.2.2.1 c6WBase 2 netAll c6WResp ("h", 1) "qq" none
      rfl rfl (by simp [c6WBase, mkNode])
  · exact query_wrapper_semantics.2.2.2.2.1 c6WS 2 netAll c6WOther ("h", 1) "qq" .heartbeat
      (Or.inl (by decide))
  · exact query_wrapper_semantics.2.2.2.2.2 c6WS 2 netAll c6WOther ("h", 1) "qq"
      (Or.inl (by decide))

/-- C7.  send_emergency returns True exactly when at least one target
resolved to an address and the transmission there succeeded: False on
an empty target list, and in the concrete three-target scenario where
B's address refuses transmission the per-target loop counts 2
successful sends and the call returns True. -/
theorem send_emergency_partial_success :
    (∀ (s : NodeState) (net : Addr → Bool) (fid : String) (now : ℚ) (payload : WireVal),
      (sendEmergency s net fid now [] payload).2 = false) ∧
    (∀ (s : NodeState) (net : Addr → Bool) (fid : String) (now : ℚ) (payload : WireVal)
       (targets : List String),
      ((sendEmergency s net fid now targets payload).2 = true ↔
        ∃ t ∈ targets, ∃ a, s.known_nodes.lookup t = some a ∧ net a = true)) ∧
    ((sendEmergencyAux c7Net (emergencyMessage c7Node "e-1" 50 (.obj [])) c7Node
        ["A", "B", "C"] 0).2 = 2 ∧
     (sendEmergency c7Node c7Net "e-1" 50 ["A", "B", "C"] (.obj [])).2 = true) := by
  refine ⟨fun s net fid now payload => rfl, ?_, rfl, rfl⟩
  intro s net fid now payload targets
  have hc := sendEmergencyAux_count net (emergencyMessage s fid now payload) targets s 0
  simp only [sendEmergency, hc, Nat.zero_add, gt_iff_lt, decide_eq_true_eq,
    List.countP_pos_iff, targetOk_eq_true_iff]
